import Mathlib

/-!
# TypeTrack content script: shallow embedding

A shallow embedding of the typing-speed content script
(`src/popup/popup.js`, second script in the file).  Wall-clock times are
natural numbers of milliseconds (`Date.now()`), timers are modelled by the
deadline they were scheduled for, and the single-threaded event loop is
modelled by firing a due idle timer before each later event is handled.
-/

namespace TypeTrack

/-- `IDLE_THRESHOLD_MS` from the source. -/
def IDLE_THRESHOLD_MS : Nat := 2000

/-- A DOM `Element` as far as `isTypingContext` inspects it:
`tagName`, the `type` property of inputs (empty string when absent),
`isContentEditable`, the `role` attribute, and whether
`closest('[contenteditable="true"])` finds a container. -/
structure Element where
  tagName : String
  inputType : String
  isContentEditable : Bool
  role : Option String
  inEditableContainer : Bool
  deriving DecidableEq, Repr

/-- An event target / focused node: `null`, `undefined`, a non-`Element`
node (document, text node, ...) or an `Element`. -/
inductive DomTarget where
  | null : DomTarget
  | undefined : DomTarget
  | nonElement (kind : String) : DomTarget
  | element (e : Element) : DomTarget
  deriving DecidableEq, Repr

/-- The page context read by the handlers: `window.location.hostname` and
`pathname`, `document.activeElement`, and whether that active element is the
`<body>` / the document root element. -/
structure DocContext where
  hostname : String
  pathname : String
  activeElement : DomTarget
  activeIsBody : Bool
  activeIsRoot : Bool
  deriving DecidableEq, Repr

/-- JavaScript `toLowerCase`, modelled by mapping `Char.toLower` over the
characters (the library `String.toLower` goes through `String.mapAux`,
which the kernel cannot evaluate on literals). -/
def strToLower (s : String) : String := ⟨s.data.map Char.toLower⟩

/-- The allow-list of `<input type=...>` values from `isTypingContext`. -/
def inputTypeAllowList : List String :=
  ["text", "password", "email", "search", "url", "tel", "number"]

/-- `isTypingContext(target)` from the source, checks in source order:
non-element guard, TEXTAREA, INPUT with allow-listed `type`
(`(target.type || 'text').toLowerCase()`), `isContentEditable`,
`role` textbox/combobox, `closest('[contenteditable="true"]')`. -/
def isTypingContext : DomTarget → Bool
  | .element e =>
    if e.tagName = "TEXTAREA" then true
    else if e.tagName = "INPUT" then
      inputTypeAllowList.contains
        (strToLower (if e.inputType = "" then "text" else e.inputType))
    else if e.isContentEditable then true
    else if e.role = some "textbox" || e.role = some "combobox" then true
    else e.inEditableContainer
  | _ => false

/-- The path patterns of `isGoogleDocsActive`'s regex
`/\/(document|spreadsheets|presentation|forms)\//`. -/
def gdocsPathFragments : List String :=
  ["/document/", "/spreadsheets/", "/presentation/", "/forms/"]

/-- Substring occurrence, used to model the `RegExp.test` call. -/
def strContains (hay needle : String) : Bool :=
  2 ≤ (hay.splitOn needle).length

/-- `isGoogleDocsActive()` from the source: host ends in `google.com`,
path matches the productivity-suite regex, and the active element is
present and is neither `document.body` nor `document.documentElement`. -/
def isGoogleDocsActive (doc : DocContext) : Bool :=
  if ¬ doc.hostname.endsWith "google.com" then false
  else if ¬ gdocsPathFragments.any (fun p => strContains doc.pathname p) then false
  else
    match doc.activeElement with
    | .null => false
    | .undefined => false
    | _ => ¬ doc.activeIsBody && ¬ doc.activeIsRoot

/-- `IGNORED_KEYS` from the source. -/
def IGNORED_KEYS : List String :=
  ["Shift", "Control", "Alt", "Meta", "CapsLock", "Tab", "Escape",
   "ArrowUp", "ArrowDown", "ArrowLeft", "ArrowRight",
   "Home", "End", "PageUp", "PageDown", "Insert", "PrintScreen",
   "ScrollLock", "Pause", "ContextMenu", "Dead", "Unidentified",
   "F1", "F2", "F3", "F4", "F5", "F6", "F7", "F8", "F9", "F10", "F11", "F12"]

/-- A keyboard event as far as `handleKeyDown` inspects it. -/
structure KeyEvent where
  key : String
  isRepeat : Bool
  ctrlKey : Bool
  metaKey : Bool
  target : DomTarget
  deriving DecidableEq, Repr

/-- A paste event: the target and `clipboardData.getData('text')`
(`none` when `clipboardData` is absent). -/
structure PasteEvent where
  target : DomTarget
  clipboardData : Option String
  deriving DecidableEq, Repr

/-- The content script's mutable state: the module-level `let` bindings.
`idleTimer` holds the deadline (schedule time + `IDLE_THRESHOLD_MS`) of the
pending `setTimeout(onIdle, ...)`, or `none`. -/
structure TrackerState where
  isActive : Bool
  startTime : Option Nat
  stopTime : Option Nat
  totalChars : Nat
  backspaces : Nat
  pastedChars : Nat
  peakWpm : Nat
  accumulatedActiveMs : Nat
  burstStart : Option Nat
  idleTimer : Option Nat
  deriving DecidableEq, Repr

/-- The initial values of the module-level bindings (before any run). -/
def initialState : TrackerState :=
  { isActive := false, startTime := none, stopTime := none,
    totalChars := 0, backspaces := 0, pastedChars := 0, peakWpm := 0,
    accumulatedActiveMs := 0, burstStart := none, idleTimer := none }

/-- `onIdle()` from the source, firing at wall-clock time `now`: folds the
open burst into `accumulatedActiveMs` and clears the timer slot. -/
def onIdle (now : Nat) (s : TrackerState) : TrackerState :=
  match s.burstStart with
  | some b =>
      { s with accumulatedActiveMs := s.accumulatedActiveMs + (now - b),
               burstStart := none, idleTimer := none }
  | none => { s with idleTimer := none }

/-- `getActiveTimeMs()` from the source, at wall-clock time `now`. -/
def getActiveTimeMs (now : Nat) (s : TrackerState) : Nat :=
  match s.burstStart with
  | some b => s.accumulatedActiveMs + (now - b)
  | none => s.accumulatedActiveMs

/-- `resetIdleTimer()` from the source at time `now`: clear any pending
timer and schedule `onIdle` for `now + IDLE_THRESHOLD_MS`. -/
def resetIdleTimer (now : Nat) (s : TrackerState) : TrackerState :=
  { s with idleTimer := some (now + IDLE_THRESHOLD_MS) }

/-- The event loop firing a due idle timer: before an event at time `now`
is handled, a pending `onIdle` whose deadline has passed runs (at its
deadline). -/
def fireDueIdle (now : Nat) (s : TrackerState) : TrackerState :=
  match s.idleTimer with
  | some d => if d ≤ now then onIdle d s else s
  | none => s

/-- The target-resolution pattern shared by `handleKeyDown` and
`handlePaste`: the event target if it is a typing context, else
`document.activeElement`; the event is eligible when the resolved target is
a typing context or `isGoogleDocsActive()` holds. -/
def eligibleEvent (doc : DocContext) (target : DomTarget) : Bool :=
  let typingTarget := if isTypingContext target then target else doc.activeElement
  isTypingContext typingTarget || isGoogleDocsActive doc

/-- `handleKeyDown(event)` from the source at time `now`. -/
def handleKeyDown (doc : DocContext) (e : KeyEvent) (now : Nat)
    (s : TrackerState) : TrackerState :=
  if ¬ s.isActive then s
  else if e.isRepeat then s
  else if ¬ eligibleEvent doc e.target then s
  else if IGNORED_KEYS.contains e.key then s
  else if e.ctrlKey || e.metaKey then s
  else if e.key = "Backspace" || e.key = "Delete" then
    resetIdleTimer now { s with backspaces := s.backspaces + 1 }
  else if e.key.length = 1 || e.key = "Enter" then
    let s1 :=
      match s.startTime with
      | none => { s with startTime := some now, burstStart := some now }
      | some _ =>
        match s.burstStart with
        | none => { s with burstStart := some now }
        | some _ => s
    resetIdleTimer now { s1 with totalChars := s1.totalChars + 1 }
  else s

/-- `handlePaste(event)` from the source at time `now`. -/
def handlePaste (doc : DocContext) (e : PasteEvent) (now : Nat)
    (s : TrackerState) : TrackerState :=
  if ¬ s.isActive then s
  else if ¬ eligibleEvent doc e.target then s
  else
    let text := e.clipboardData.getD ""
    if 0 < text.length then
      resetIdleTimer now { s with pastedChars := s.pastedChars + text.length }
    else s

/-- `Math.round (num / den)` for non-negative exact rationals given as a
numerator/denominator pair: `⌊num/den + 1/2⌋`. -/
def jsRound (num den : Nat) : Nat :=
  (2 * num + den) / (2 * den)

/-- The snapshot object returned by `getStats()`. -/
structure Stats where
  isActive : Bool
  wpm : Nat
  cpm : Nat
  totalChars : Nat
  backspaces : Nat
  pastedChars : Nat
  elapsedTime : Nat
  activeTime : Nat
  peakWpm : Nat
  hasData : Bool
  deriving DecidableEq, Repr

/-- `getStats()` from the source at time `now`: computes the snapshot and
(as a side effect) raises `peakWpm`.  `wpm = Math.round((totalChars/5) /
(activeMs/60000))` is `jsRound (totalChars * 12000) activeMs` exactly, and
`cpm` likewise with `60000`. -/
def getStats (now : Nat) (s : TrackerState) : TrackerState × Stats :=
  let activeMs := getActiveTimeMs now s
  let wpm := if 0 < activeMs then jsRound (s.totalChars * 12000) activeMs else 0
  let cpm := if 0 < activeMs then jsRound (s.totalChars * 60000) activeMs else 0
  let peak := if s.peakWpm < wpm then wpm else s.peakWpm
  let wallElapsed :=
    match s.startTime with
    | some st => ((if s.isActive then now else s.stopTime.getD now) - st) / 1000
    | none => 0
  ({ s with peakWpm := peak },
   { isActive := s.isActive, wpm := wpm, cpm := cpm,
     totalChars := s.totalChars, backspaces := s.backspaces,
     pastedChars := s.pastedChars, elapsedTime := wallElapsed,
     activeTime := activeMs / 1000, peakWpm := peak,
     hasData := s.startTime.isSome })

/-- A persisted Session, as built by `saveSession`. -/
structure Session where
  id : Nat
  timestampMs : Nat
  domain : String
  duration : Nat
  avgWPM : Nat
  avgCPM : Nat
  totalChars : Nat
  backspaces : Nat
  pastedChars : Nat
  deriving DecidableEq, Repr

/-- The Session `saveSession(stats)` builds at time `now` on a page with
hostname `host`, or `none` when `stats.totalChars === 0`. -/
def sessionOfStats (now : Nat) (host : String) (stats : Stats) :
    Option Session :=
  if stats.totalChars = 0 then none
  else some
    { id := now, timestampMs := now,
      domain := if host = "" then "unknown" else host,
      duration := stats.activeTime, avgWPM := stats.wpm, avgCPM := stats.cpm,
      totalChars := stats.totalChars, backspaces := stats.backspaces,
      pastedChars := stats.pastedChars }

/-- The storage mutation of `saveSession`: `sessions.unshift(session)` then
`if (sessions.length > 10) sessions.length = 10`. -/
def appendSession (sess : Session) (sessions : List Session) : List Session :=
  List.take 10 (sess :: sessions)

/-- The `'start'` message case: reset every binding, flip `isActive` on,
clear the idle timer, then respond with a fresh `getStats()` snapshot. -/
def startCase (now : Nat) (_s : TrackerState) : TrackerState × Stats :=
  let s1 : TrackerState :=
    { isActive := true, startTime := none, stopTime := none,
      totalChars := 0, backspaces := 0, pastedChars := 0, peakWpm := 0,
      accumulatedActiveMs := 0, burstStart := none, idleTimer := none }
  getStats now s1

/-- The `'stop'` message case at time `now` on a page with hostname `host`:
deactivate, set `stopTime`, cancel the idle timer, fold any open burst,
take the final snapshot and hand it to `saveSession`.  Returns the final
state, the response snapshot, and the Session recorded (if any). -/
def stopCase (now : Nat) (host : String) (s : TrackerState) :
    TrackerState × Stats × Option Session :=
  let s1 : TrackerState :=
    { s with isActive := false,
             stopTime := if s.startTime.isSome then some now else none,
             idleTimer := none }
  let s2 : TrackerState :=
    match s1.burstStart with
    | some b =>
        { s1 with accumulatedActiveMs := s1.accumulatedActiveMs + (now - b),
                  burstStart := none }
    | none => s1
  let res := getStats now s2
  (res.1, res.2, sessionOfStats now host res.2)

/-- Events a run can process, each stamped with its wall-clock time:
key and paste events, an idle-timer expiry, a `getStats` query or
broadcast tick, and the `stop` / `start` commands. -/
inductive PageEvent where
  | key (e : KeyEvent) (t : Nat) : PageEvent
  | paste (e : PasteEvent) (t : Nat) : PageEvent
  | idleFire (t : Nat) : PageEvent
  | query (t : Nat) : PageEvent
  | stopCmd (host : String) (t : Nat) : PageEvent
  | startCmd (t : Nat) : PageEvent
  deriving Repr

/-- Whether an event is the `start` command. -/
def PageEvent.isStart : PageEvent → Bool
  | .startCmd _ => true
  | _ => false

/-- One step of the single-threaded event loop: a due idle timer fires
before the event's own handler runs. -/
def stepState (doc : DocContext) (s : TrackerState) : PageEvent → TrackerState
  | .key e t => handleKeyDown doc e t (fireDueIdle t s)
  | .paste e t => handlePaste doc e t (fireDueIdle t s)
  | .idleFire t => fireDueIdle t s
  | .query t => (getStats t (fireDueIdle t s)).1
  | .stopCmd host t => (stopCase t host (fireDueIdle t s)).1
  | .startCmd t => (startCase t s).1

/-- Run a list of events through the loop. -/
def runEvents (doc : DocContext) (s : TrackerState)
    (evs : List PageEvent) : TrackerState :=
  evs.foldl (stepState doc) s

/-! ## Concrete scenario material -/

/-- A plain `<textarea>` element (accepted by `isTypingContext`). -/
def textareaEl : Element :=
  { tagName := "TEXTAREA", inputType := "", isContentEditable := false,
    role := none, inEditableContainer := false }

/-- An ordinary page (not a Google editor), nothing focused. -/
def plainDoc : DocContext :=
  { hostname := "example.com", pathname := "/", activeElement := .null,
    activeIsBody := false, activeIsRoot := false }

/-- A printable keystroke `a` delivered to the textarea. -/
def charKey : KeyEvent :=
  { key := "a", isRepeat := false, ctrlKey := false, metaKey := false,
    target := .element textareaEl }

/-- A `Backspace` keystroke delivered to the textarea. -/
def bsKey : KeyEvent :=
  { key := "Backspace", isRepeat := false, ctrlKey := false, metaKey := false,
    target := .element textareaEl }

/-- Type printable characters at the given wall-clock times (the event loop
fires a due idle timer before each keystroke). -/
def typeCharsAt (ts : List Nat) (s : TrackerState) : TrackerState :=
  ts.foldl (fun s t => handleKeyDown plainDoc charKey t (fireDueIdle t s)) s

/-- The state right after a `'start'` command on a fresh page. -/
def runningState : TrackerState := (startCase 1000000 initialState).1

/-- A keystroke sequence whose consecutive gaps are all below the idle
threshold (so the idle timer never fires inside it), with non-decreasing
times. -/
def chainOk : List Nat → Bool
  | a :: b :: rest => a ≤ b && b < a + IDLE_THRESHOLD_MS && chainOk (b :: rest)
  | _ => true

/-! ## Basic lemmas about the clock and the keystroke handler -/

lemma chainOk_cons_cons (a b : Nat) (rest : List Nat) :
    chainOk (a :: b :: rest)
      = (decide (a ≤ b) && decide (b < a + IDLE_THRESHOLD_MS)
          && chainOk (b :: rest)) := rfl

lemma chainOk_head_le_getLastD :
    ∀ (a : Nat) (l : List Nat), chainOk (a :: l) = true → a ≤ l.getLastD a
  | _, [], _ => le_refl _
  | a, b :: l, h => by
      rw [chainOk_cons_cons] at h
      simp only [Bool.and_eq_true, decide_eq_true_eq] at h
      obtain ⟨⟨h1, _⟩, h3⟩ := h
      calc a ≤ b := h1
        _ ≤ l.getLastD b := chainOk_head_le_getLastD b l h3
        _ = (b :: l).getLastD a := (List.getLastD_cons ..).symm

lemma typeCharsAt_nil (s : TrackerState) : typeCharsAt [] s = s := rfl

lemma typeCharsAt_cons (t : Nat) (ts : List Nat) (s : TrackerState) :
    typeCharsAt (t :: ts) s
      = typeCharsAt ts (handleKeyDown plainDoc charKey t (fireDueIdle t s)) :=
  rfl

lemma typeCharsAt_append (ts us : List Nat) (s : TrackerState) :
    typeCharsAt (ts ++ us) s = typeCharsAt us (typeCharsAt ts s) :=
  List.foldl_append ..

lemma fireDueIdle_none (now : Nat) (a1 : Bool) (a2 a3 : Option Nat)
    (c bs pc pk acc : Nat) (b0 : Option Nat) :
    fireDueIdle now ⟨a1, a2, a3, c, bs, pc, pk, acc, b0, none⟩
      = ⟨a1, a2, a3, c, bs, pc, pk, acc, b0, none⟩ := rfl

lemma fireDueIdle_notDue (now d : Nat) (hd : ¬ d ≤ now) (a1 : Bool)
    (a2 a3 : Option Nat) (c bs pc pk acc : Nat) (b0 : Option Nat) :
    fireDueIdle now ⟨a1, a2, a3, c, bs, pc, pk, acc, b0, some d⟩
      = ⟨a1, a2, a3, c, bs, pc, pk, acc, b0, some d⟩ := by
  simp [fireDueIdle, hd]

lemma fireDueIdle_due (now d : Nat) (hd : d ≤ now) (a1 : Bool)
    (a2 a3 : Option Nat) (c bs pc pk acc b : Nat) :
    fireDueIdle now ⟨a1, a2, a3, c, bs, pc, pk, acc, some b, some d⟩
      = ⟨a1, a2, a3, c, bs, pc, pk, acc + (d - b), none, none⟩ := by
  simp [fireDueIdle, hd, onIdle]

lemma handleKeyDown_char_fresh (t : Nat) (a3 : Option Nat)
    (c bs pc pk acc : Nat) (b0 it : Option Nat) :
    handleKeyDown plainDoc charKey t ⟨true, none, a3, c, bs, pc, pk, acc, b0, it⟩
      = ⟨true, some t, a3, c + 1, bs, pc, pk, acc, some t,
         some (t + IDLE_THRESHOLD_MS)⟩ := rfl

lemma handleKeyDown_char_inBurst (t st b : Nat) (a3 : Option Nat)
    (c bs pc pk acc : Nat) (it : Option Nat) :
    handleKeyDown plainDoc charKey t
        ⟨true, some st, a3, c, bs, pc, pk, acc, some b, it⟩
      = ⟨true, some st, a3, c + 1, bs, pc, pk, acc, some b,
         some (t + IDLE_THRESHOLD_MS)⟩ := rfl

lemma handleKeyDown_char_reopen (t st : Nat) (a3 : Option Nat)
    (c bs pc pk acc : Nat) (it : Option Nat) :
    handleKeyDown plainDoc charKey t
        ⟨true, some st, a3, c, bs, pc, pk, acc, none, it⟩
      = ⟨true, some st, a3, c + 1, bs, pc, pk, acc, some t,
         some (t + IDLE_THRESHOLD_MS)⟩ := rfl

/-- While a burst is open and each keystroke lands before the pending idle
deadline, typing only bumps `totalChars` and pushes the idle deadline:
`burstStart` and `accumulatedActiveMs` are untouched. -/
lemma typeCharsAt_burst :
    ∀ (ts : List Nat) (prev st b : Nat) (a3 : Option Nat)
      (c bs pc pk acc : Nat),
      chainOk (prev :: ts) = true →
      typeCharsAt ts
          ⟨true, some st, a3, c, bs, pc, pk, acc, some b,
           some (prev + IDLE_THRESHOLD_MS)⟩
        = ⟨true, some st, a3, c + ts.length, bs, pc, pk, acc, some b,
           some (ts.getLastD prev + IDLE_THRESHOLD_MS)⟩
  | [], prev, st, b, a3, c, bs, pc, pk, acc, _ => by
      simp [typeCharsAt_nil]
  | t :: ts, prev, st, b, a3, c, bs, pc, pk, acc, h => by
      rw [chainOk_cons_cons] at h
      simp only [Bool.and_eq_true, decide_eq_true_eq] at h
      obtain ⟨⟨_, h2⟩, h3⟩ := h
      rw [typeCharsAt_cons,
        fireDueIdle_notDue t (prev + IDLE_THRESHOLD_MS) (by omega),
        handleKeyDown_char_inBurst,
        typeCharsAt_burst ts t st b a3 (c + 1) bs pc pk acc h3,
        List.getLastD_cons]
      congr 1
      simp [List.length_cons]
      omega

/-! ## C1 — active time across an idle gap -/

/-- C1 (amended): for a run with two bursts of keystrokes (gaps inside each
burst below 2000 ms) separated by a gap of at least 2000 ms, the active
time reported right after the last keystroke is the sum of the two bursts'
first-to-last keystroke spans **plus `IDLE_THRESHOLD_MS` (2000 ms)**: the
idle timer that closes the first burst fires 2000 ms after its last
keystroke and `onIdle` folds that trailing 2000 ms into the accumulated
total.  (The claim's "excluding the gap itself" fails: the first 2000 ms of
the gap are counted.) -/
theorem C1_active_time_two_bursts (t0 u0 : Nat) (ts us : List Nat)
    (h1 : chainOk (t0 :: ts) = true) (h2 : chainOk (u0 :: us) = true)
    (hgap : ts.getLastD t0 + IDLE_THRESHOLD_MS ≤ u0) :
    getActiveTimeMs (us.getLastD u0)
        (typeCharsAt ((t0 :: ts) ++ u0 :: us) runningState)
      = ((ts.getLastD t0 - t0) + (us.getLastD u0 - u0)) + IDLE_THRESHOLD_MS := by
  have hd1 : t0 ≤ ts.getLastD t0 := chainOk_head_le_getLastD t0 ts h1
  have hrun : runningState = ⟨true, none, none, 0, 0, 0, 0, 0, none, none⟩ := rfl
  have hB1 : typeCharsAt (t0 :: ts) runningState
      = ⟨true, some t0, none, 0 + 1 + ts.length, 0, 0, 0, 0, some t0,
         some (ts.getLastD t0 + IDLE_THRESHOLD_MS)⟩ := by
    rw [typeCharsAt_cons, hrun, fireDueIdle_none, handleKeyDown_char_fresh,
      typeCharsAt_burst ts t0 t0 t0 none (0 + 1) 0 0 0 0 h1]
  rw [typeCharsAt_append, hB1, typeCharsAt_cons,
    fireDueIdle_due u0 (ts.getLastD t0 + IDLE_THRESHOLD_MS) hgap,
    handleKeyDown_char_reopen,
    typeCharsAt_burst us u0 t0 u0 none (0 + 1 + ts.length + 1)
      0 0 0 (0 + (ts.getLastD t0 + IDLE_THRESHOLD_MS - t0)) h2]
  show 0 + (ts.getLastD t0 + IDLE_THRESHOLD_MS - t0) + (us.getLastD u0 - u0) = _
  have : (2000 : Nat) = IDLE_THRESHOLD_MS := rfl
  omega

/-- C1 (counterexample to the claim as stated): two single-keystroke bursts
at 1000000 ms and 1005000 ms (each of duration 0, separated by 5000 ms).
The claim demands `getActiveTimeMs` after the gap to equal the sum of the
bursts' durations, `(1000000 - 1000000) + (1005000 - 1005000) = 0`, but the
code reports 2000 — the idle tail of the first burst. -/
theorem C1_claim_counterexample :
    getActiveTimeMs 1005000 (typeCharsAt ([1000000] ++ [1005000]) runningState)
        = 2000
      ∧ (1000000 - 1000000) + (1005000 - 1005000) = 0
      ∧ (2000 : Nat) ≠ 0 := by
  refine ⟨rfl, rfl, by decide⟩

/-- Witness for C1: two two-keystroke bursts, 500 ms and 600 ms long,
separated by a 2500 ms gap; the reported active time is
`500 + 600 + 2000 = 3100`. -/
theorem C1_active_time_two_bursts_witness :
    getActiveTimeMs 1003600
        (typeCharsAt (([1000000, 1000500] : List Nat) ++ [1003000, 1003600])
          runningState)
      = 3100 :=
  C1_active_time_two_bursts 1000000 1003000 [1000500] [1003600]
    (by decide) (by decide) (by decide)

/-! ## C2 — what accepted events do to the clock -/

lemma handleKeyDown_printable (doc : DocContext) (e : KeyEvent) (now : Nat)
    (a2 a3 : Option Nat) (c bs pc pk acc : Nat) (b0 it : Option Nat)
    (hR : e.isRepeat = false) (hE : eligibleEvent doc e.target = true)
    (hI : IGNORED_KEYS.contains e.key = false)
    (hC : e.ctrlKey = false) (hM : e.metaKey = false)
    (hBD : (e.key = "Backspace" || e.key = "Delete") = false)
    (hP : (e.key.length = 1 || e.key = "Enter") = true) :
    handleKeyDown doc e now ⟨true, a2, a3, c, bs, pc, pk, acc, b0, it⟩
      = match a2, b0 with
        | none, _ =>
            ⟨true, some now, a3, c + 1, bs, pc, pk, acc, some now,
             some (now + IDLE_THRESHOLD_MS)⟩
        | some st, none =>
            ⟨true, some st, a3, c + 1, bs, pc, pk, acc, some now,
             some (now + IDLE_THRESHOLD_MS)⟩
        | some st, some b =>
            ⟨true, some st, a3, c + 1, bs, pc, pk, acc, some b,
             some (now + IDLE_THRESHOLD_MS)⟩ := by
  simp only [handleKeyDown, hR, hE, hI, hC, hM, hBD, hP, resetIdleTimer,
    Bool.or_self, Bool.false_eq_true, not_true, not_false_eq_true,
    if_false, if_true, ite_false, ite_true]
  cases a2 <;> cases b0 <;> rfl

lemma handleKeyDown_deletion (doc : DocContext) (e : KeyEvent) (now : Nat)
    (a2 a3 : Option Nat) (c bs pc pk acc : Nat) (b0 it : Option Nat)
    (hR : e.isRepeat = false) (hE : eligibleEvent doc e.target = true)
    (hC : e.ctrlKey = false) (hM : e.metaKey = false)
    (hBD : (e.key = "Backspace" || e.key = "Delete") = true) :
    handleKeyDown doc e now ⟨true, a2, a3, c, bs, pc, pk, acc, b0, it⟩
      = ⟨true, a2, a3, c, bs + 1, pc, pk, acc, b0,
         some (now + IDLE_THRESHOLD_MS)⟩ := by
  obtain ⟨k, rp, ck, mk, tg⟩ := e
  simp only at hR hE hC hM hBD
  subst hR; subst hC; subst hM
  simp only [Bool.or_eq_true, decide_eq_true_eq] at hBD
  rcases hBD with hk | hk <;> subst hk <;>
    · unfold handleKeyDown
      rw [hE]
      rfl

lemma handlePaste_nonempty (doc : DocContext) (p : PasteEvent) (now : Nat)
    (a2 a3 : Option Nat) (c bs pc pk acc : Nat) (b0 it : Option Nat)
    (hE : eligibleEvent doc p.target = true)
    (hT : 0 < (p.clipboardData.getD "").length) :
    handlePaste doc p now ⟨true, a2, a3, c, bs, pc, pk, acc, b0, it⟩
      = ⟨true, a2, a3, c, bs, pc + (p.clipboardData.getD "").length, pk, acc,
         b0, some (now + IDLE_THRESHOLD_MS)⟩ := by
  unfold handlePaste
  rw [hE]
  simp [hT, resetIdleTimer]

/-- A running state that has gone idle: one keystroke at 1000000 ms, burst
closed by the idle timer at 1002000 ms (2000 ms accumulated). -/
def idleRunState : TrackerState :=
  ⟨true, some 1000000, none, 1, 0, 0, 0, 2000, none, none⟩

/-- A paste of the 5-character text `hello` into the textarea. -/
def pasteEv : PasteEvent :=
  { target := .element textareaEl, clipboardData := some "hello" }

/-- C2 (amended): accepted printable/Enter keystrokes follow the full
`recordActivity` contract — the idle-expiry deadline is pushed to
`now + 2000`; if no burst is open one opens at the current time, and an
open burst's start is unchanged.  Accepted deletions and eligible
non-empty pastes, however, only bump their counter and restart the idle
timer: they never open a burst (`burstStart` is left exactly as it was). -/
theorem C2_record_activity (doc : DocContext) (e : KeyEvent) (p : PasteEvent)
    (now : Nat) (s : TrackerState) (hA : s.isActive = true) :
    (e.isRepeat = false → eligibleEvent doc e.target = true →
      IGNORED_KEYS.contains e.key = false →
      e.ctrlKey = false → e.metaKey = false →
      (e.key = "Backspace" || e.key = "Delete") = false →
      (e.key.length = 1 || e.key = "Enter") = true →
      (handleKeyDown doc e now s).idleTimer = some (now + IDLE_THRESHOLD_MS)
        ∧ (s.burstStart = none →
            (handleKeyDown doc e now s).burstStart = some now)
        ∧ (s.startTime.isSome = true → s.burstStart.isSome = true →
            (handleKeyDown doc e now s).burstStart = s.burstStart))
    ∧ (e.isRepeat = false → eligibleEvent doc e.target = true →
      e.ctrlKey = false → e.metaKey = false →
      (e.key = "Backspace" || e.key = "Delete") = true →
      handleKeyDown doc e now s
        = { s with backspaces := s.backspaces + 1,
                   idleTimer := some (now + IDLE_THRESHOLD_MS) })
    ∧ (eligibleEvent doc p.target = true →
      0 < (p.clipboardData.getD "").length →
      handlePaste doc p now s
        = { s with
              pastedChars := s.pastedChars + (p.clipboardData.getD "").length,
              idleTimer := some (now + IDLE_THRESHOLD_MS) }) := by
  obtain ⟨a1, a2, a3, c, bs, pc, pk, acc, b0, it⟩ := s
  cases a1
  · simp at hA
  refine ⟨fun hR hE hI hC hM hBD hP => ?_, fun hR hE hC hM hBD => ?_,
    fun hE hT => ?_⟩
  · rw [handleKeyDown_printable doc e now a2 a3 c bs pc pk acc b0 it
      hR hE hI hC hM hBD hP]
    cases a2 <;> cases b0 <;> simp
  · rw [handleKeyDown_deletion doc e now a2 a3 c bs pc pk acc b0 it
      hR hE hC hM hBD]
  · rw [handlePaste_nonempty doc p now a2 a3 c bs pc pk acc b0 it hE hT]

/-- C2 (counterexample to the claim as stated): on the idle running state
(no open burst), a `Backspace` at 1005000 ms is accepted — the deletion
counter becomes 1 and the idle deadline is pushed to 1007000 ms — yet
`burstStart` stays `none` instead of the `some 1005000` the claim's
`recordActivity` contract demands for deletions. -/
theorem C2_claim_counterexample :
    (handleKeyDown plainDoc bsKey 1005000 idleRunState).backspaces = 1
      ∧ (handleKeyDown plainDoc bsKey 1005000 idleRunState).idleTimer
          = some 1007000
      ∧ (handleKeyDown plainDoc bsKey 1005000 idleRunState).burstStart = none
      ∧ (none : Option Nat) ≠ some 1005000 :=
  ⟨rfl, rfl, rfl, by decide⟩

/-- Witness for C2: a printable keystroke on the idle state opens a burst
at the current time; a `Backspace` and a 5-character paste only bump their
counters and push the idle deadline. -/
theorem C2_record_activity_witness :
    (handleKeyDown plainDoc charKey 1005000 idleRunState).burstStart
        = some 1005000
      ∧ handleKeyDown plainDoc bsKey 1005000 idleRunState
          = { idleRunState with backspaces := 1, idleTimer := some 1007000 }
      ∧ handlePaste plainDoc pasteEv 1005000 idleRunState
          = { idleRunState with pastedChars := 5, idleTimer := some 1007000 } := by
  refine ⟨?_, ?_, ?_⟩
  · exact ((C2_record_activity plainDoc charKey pasteEv 1005000 idleRunState
      rfl).1 rfl rfl (by decide) rfl rfl (by decide) (by decide)).2.1 rfl
  · exact (C2_record_activity plainDoc bsKey pasteEv 1005000 idleRunState
      rfl).2.1 rfl rfl rfl rfl (by decide)
  · exact (C2_record_activity plainDoc bsKey pasteEv 1005000 idleRunState
      rfl).2.2 rfl (by decide)

/-! ## C3 — snapshot WPM/CPM formula -/

/-- Modelled from the spec: `Math.round` of a non-negative rational. -/
def specRound (q : ℚ) : ℕ := ⌊q + 1 / 2⌋₊

/-- Modelled from the spec: `WPM = round((chars/5)/activeMin)` with
`activeMin = elapsedActiveMs/60000`, and 0 when `activeMin = 0`. -/
def specWpm (chars activeMs : ℕ) : ℕ :=
  if 0 < activeMs then specRound (((chars : ℚ) / 5) / ((activeMs : ℚ) / 60000))
  else 0

/-- Modelled from the spec: `CPM = round(chars/activeMin)`, 0 when
`activeMin = 0`. -/
def specCpm (chars activeMs : ℕ) : ℕ :=
  if 0 < activeMs then specRound ((chars : ℚ) / ((activeMs : ℚ) / 60000))
  else 0

lemma jsRound_eq_floor (num den : ℕ) (hd : 0 < den) :
    jsRound num den = ⌊(num : ℚ) / (den : ℚ) + 1 / 2⌋₊ := by
  have hden : ((den : ℚ)) ≠ 0 := by positivity
  have h : (num : ℚ) / (den : ℚ) + 1 / 2
      = ((2 * num + den : ℕ) : ℚ) / ((2 * den : ℕ) : ℚ) := by
    push_cast
    field_simp
    try ring
  rw [jsRound, h, Nat.floor_div_eq_div]

lemma wpm_arg_eq (c a : ℕ) (ha : 0 < a) :
    ((c * 12000 : ℕ) : ℚ) / ((a : ℕ) : ℚ)
      = ((c : ℚ) / 5) / ((a : ℚ) / 60000) := by
  have haq : ((a : ℚ)) ≠ 0 := by positivity
  push_cast
  field_simp
  try ring

lemma cpm_arg_eq (c a : ℕ) (ha : 0 < a) :
    ((c * 60000 : ℕ) : ℚ) / ((a : ℕ) : ℚ)
      = (c : ℚ) / ((a : ℚ) / 60000) := by
  have haq : ((a : ℚ)) ≠ 0 := by positivity
  push_cast
  field_simp
  try ring

/-- 25 keystrokes, 125 ms apart, spanning 1000000–1003000 ms. -/
def burst25 : List Nat := (List.range 25).map (fun i => 1000000 + 125 * i)

set_option maxRecDepth 10000 in
/-- C3 (amended): every snapshot's WPM and CPM agree with the spec's
formulas `round((chars/5)/activeMin)` and `round(chars/activeMin)` (0 when
`activeMin = 0`), computed in exact rational arithmetic; the 25-character
/ 3-second scenario yields `WPM = round((25/5)/0.05) = 100` (not 500) and
`CPM = round(25/0.05) = 500`. -/
theorem C3_snapshot_formula :
    (∀ (now : Nat) (s : TrackerState),
      (getStats now s).2.wpm = specWpm s.totalChars (getActiveTimeMs now s)
        ∧ (getStats now s).2.cpm = specCpm s.totalChars (getActiveTimeMs now s))
      ∧ (getStats 1003000 (typeCharsAt burst25 runningState)).2.wpm = 100
      ∧ (getStats 1003000 (typeCharsAt burst25 runningState)).2.cpm = 500 := by
  refine ⟨fun now s => ?_, rfl, rfl⟩
  have hw : (getStats now s).2.wpm
      = (if 0 < getActiveTimeMs now s then
          jsRound (s.totalChars * 12000) (getActiveTimeMs now s) else 0) := rfl
  have hc : (getStats now s).2.cpm
      = (if 0 < getActiveTimeMs now s then
          jsRound (s.totalChars * 60000) (getActiveTimeMs now s) else 0) := rfl
  rw [hw, hc]
  by_cases ha : 0 < getActiveTimeMs now s
  · simp only [ha, if_true, specWpm, specCpm]
    constructor
    · rw [jsRound_eq_floor _ _ ha, specRound, wpm_arg_eq _ _ ha]
    · rw [jsRound_eq_floor _ _ ha, specRound, cpm_arg_eq _ _ ha]
  · simp [ha, specWpm, specCpm]

set_option maxRecDepth 10000 in
/-- C3 (counterexample to the claim as stated): typing 25 characters over
exactly 3 seconds (0.05 active minutes) gives `WPM = 100`, not the claimed
500: `(25/5)/0.05 = 100`.  (`CPM = 500` does hold.) -/
theorem C3_claim_counterexample :
    (getStats 1003000 (typeCharsAt burst25 runningState)).2.totalChars = 25
      ∧ getActiveTimeMs 1003000 (typeCharsAt burst25 runningState) = 3000
      ∧ (getStats 1003000 (typeCharsAt burst25 runningState)).2.wpm = 100
      ∧ (100 : ℕ) ≠ 500 :=
  ⟨rfl, rfl, rfl, by decide⟩

/-! ## C4 — peak WPM monotonicity -/

lemma peak_handleKeyDown (doc : DocContext) (e : KeyEvent) (now : Nat)
    (s : TrackerState) : (handleKeyDown doc e now s).peakWpm = s.peakWpm := by
  unfold handleKeyDown resetIdleTimer
  rcases hA : s.startTime with _ | st <;> rcases hB : s.burstStart with _ | b <;>
    split_ifs <;> simp [hA, hB]

lemma peak_handlePaste (doc : DocContext) (p : PasteEvent) (now : Nat)
    (s : TrackerState) : (handlePaste doc p now s).peakWpm = s.peakWpm := by
  unfold handlePaste resetIdleTimer
  split_ifs <;> simp
  split_ifs <;> simp

lemma peak_fireDueIdle (now : Nat) (s : TrackerState) :
    (fireDueIdle now s).peakWpm = s.peakWpm := by
  unfold fireDueIdle onIdle
  rcases hI : s.idleTimer with _ | d <;> rcases hB : s.burstStart with _ | b <;>
    simp [hI, hB] <;> split_ifs <;> simp

lemma peak_getStats (now : Nat) (s : TrackerState) :
    (getStats now s).1.peakWpm = max s.peakWpm ((getStats now s).2.wpm) := by
  show (if s.peakWpm < ((getStats now s).2.wpm) then ((getStats now s).2.wpm)
        else s.peakWpm) = _
  rw [max_def]
  split_ifs <;> omega

lemma stopCase_fst_eq (now : Nat) (host : String) (s : TrackerState) :
    ∃ s2 : TrackerState, s2.peakWpm = s.peakWpm
      ∧ (stopCase now host s).1 = (getStats now s2).1 := by
  unfold stopCase
  rcases hB : s.burstStart with _ | b <;> simp [hB] <;> refine ⟨_, ?_, rfl⟩ <;> rfl

lemma peak_stopCase (now : Nat) (host : String) (s : TrackerState) :
    s.peakWpm ≤ (stopCase now host s).1.peakWpm := by
  obtain ⟨s2, h1, h2⟩ := stopCase_fst_eq now host s
  rw [h2, peak_getStats, ← h1]
  exact le_max_left _ _

lemma peak_step (doc : DocContext) (s : TrackerState) (ev : PageEvent)
    (h : ev.isStart = false) : s.peakWpm ≤ (stepState doc s ev).peakWpm := by
  cases ev with
  | key e t => simp [stepState, peak_handleKeyDown, peak_fireDueIdle]
  | paste e t => simp [stepState, peak_handlePaste, peak_fireDueIdle]
  | idleFire t => simp [stepState, peak_fireDueIdle]
  | query t =>
      calc s.peakWpm = (fireDueIdle t s).peakWpm := (peak_fireDueIdle t s).symm
        _ ≤ _ := by rw [stepState, peak_getStats]; exact le_max_left _ _
  | stopCmd host t =>
      calc s.peakWpm = (fireDueIdle t s).peakWpm := (peak_fireDueIdle t s).symm
        _ ≤ _ := peak_stopCase t host _
  | startCmd t => simp [PageEvent.isStart] at h

lemma peak_runEvents (doc : DocContext) (evs : List PageEvent) :
    ∀ s : TrackerState, (∀ ev ∈ evs, ev.isStart = false) →
      s.peakWpm ≤ (runEvents doc s evs).peakWpm := by
  induction evs with
  | nil => exact fun s _ => le_refl _
  | cons ev evs ih =>
      intro s h
      have h1 : ev.isStart = false := h ev (List.mem_cons_self ..)
      have h2 : ∀ e ∈ evs, e.isStart = false :=
        fun e he => h e (List.mem_cons_of_mem _ he)
      exact le_trans (peak_step doc s ev h1) (ih _ h2)

/-- C4: within a run (any event sequence containing no `start` command),
`peakWpm` never decreases; every snapshot sets it to
`max(peakWpm, current WPM)`; and the `start` command resets it to 0. -/
theorem C4_peak_monotone (doc : DocContext) (s : TrackerState)
    (evs : List PageEvent) (hevs : ∀ ev ∈ evs, ev.isStart = false)
    (now : Nat) :
    s.peakWpm ≤ (runEvents doc s evs).peakWpm
      ∧ (getStats now s).1.peakWpm = max s.peakWpm ((getStats now s).2.wpm)
      ∧ (startCase now s).1.peakWpm = 0 :=
  ⟨peak_runEvents doc evs s hevs, peak_getStats now s, rfl⟩

/-- A running state mid-run with `peakWpm = 7`, 25 characters typed and
3000 ms of accumulated active time, to probe a snapshot step. -/
def peakProbeState : TrackerState :=
  ⟨true, some 1000000, none, 25, 0, 0, 7, 3000, none, none⟩

/-- Witness for C4: a `getStats` query on the probe state can only raise
the peak — it becomes 100 (the current WPM), which is ≥ 7. -/
theorem C4_peak_monotone_witness :
    peakProbeState.peakWpm
        ≤ (runEvents plainDoc peakProbeState [PageEvent.query 1003000]).peakWpm
      ∧ (runEvents plainDoc peakProbeState [PageEvent.query 1003000]).peakWpm
          = 100 := by
  constructor
  · exact (C4_peak_monotone plainDoc peakProbeState [PageEvent.query 1003000]
      (by intro ev hev; rcases List.mem_singleton.mp hev with rfl; rfl) 0).1
  · rfl

/-! ## C5 — Session creation on stop -/

lemma sessionOfStats_isSome (now : Nat) (host : String) (stats : Stats) :
    (sessionOfStats now host stats).isSome = true ↔ stats.totalChars ≠ 0 := by
  unfold sessionOfStats
  by_cases h : stats.totalChars = 0 <;> simp [h]

lemma sessionOfStats_fields (now : Nat) (host : String) (stats : Stats)
    (sess : Session) (h : sessionOfStats now host stats = some sess) :
    sess.duration = stats.activeTime ∧ sess.avgWPM = stats.wpm
      ∧ sess.avgCPM = stats.cpm ∧ sess.totalChars = stats.totalChars
      ∧ sess.backspaces = stats.backspaces
      ∧ sess.pastedChars = stats.pastedChars
      ∧ sess.domain = (if host = "" then "unknown" else host) := by
  unfold sessionOfStats at h
  by_cases h0 : stats.totalChars = 0
  · simp [h0] at h
  · simp only [h0, if_false, Option.some.injEq] at h
    subst h
    simp

lemma stopCase_components (now : Nat) (host : String) (s : TrackerState) :
    (stopCase now host s).2.2
        = sessionOfStats now host ((stopCase now host s).2.1)
      ∧ (stopCase now host s).2.1.isActive = false
      ∧ (stopCase now host s).2.1.totalChars = s.totalChars
      ∧ (stopCase now host s).1.burstStart = none
      ∧ (stopCase now host s).1.idleTimer = none := by
  refine ⟨rfl, ?_, ?_, ?_, ?_⟩ <;>
    · unfold stopCase getStats
      rcases hB : s.burstStart with _ | b <;> simp [hB]

/-- C5: `stop` records a Session iff at least one countable character was
typed; the Session is derived field-by-field from the final snapshot,
which is taken with `isActive = false` and the clock finalized (open burst
closed, idle timer cancelled). -/
theorem C5_session_on_stop (now : Nat) (host : String) (s : TrackerState) :
    ((stopCase now host s).2.2.isSome = true ↔ s.totalChars ≠ 0)
      ∧ (stopCase now host s).2.2
          = sessionOfStats now host ((stopCase now host s).2.1)
      ∧ (stopCase now host s).2.1.isActive = false
      ∧ (stopCase now host s).2.1.totalChars = s.totalChars
      ∧ (stopCase now host s).1.burstStart = none
      ∧ (stopCase now host s).1.idleTimer = none
      ∧ (∀ sess, (stopCase now host s).2.2 = some sess →
          sess.duration = (stopCase now host s).2.1.activeTime
            ∧ sess.avgWPM = (stopCase now host s).2.1.wpm
            ∧ sess.avgCPM = (stopCase now host s).2.1.cpm
            ∧ sess.totalChars = (stopCase now host s).2.1.totalChars
            ∧ sess.backspaces = (stopCase now host s).2.1.backspaces
            ∧ sess.pastedChars = (stopCase now host s).2.1.pastedChars) := by
  obtain ⟨h1, h2, h3, h4, h5⟩ := stopCase_components now host s
  refine ⟨?_, h1, h2, h3, h4, h5, ?_⟩
  · rw [h1, sessionOfStats_isSome, h3]
  · intro sess hsess
    rw [h1] at hsess
    have hf := sessionOfStats_fields now host _ sess hsess
    exact ⟨hf.1, hf.2.1, hf.2.2.1, hf.2.2.2.1, hf.2.2.2.2.1, hf.2.2.2.2.2.1⟩

/-- Witness for C5: stopping the idle running state (1 character typed)
does record a Session; stopping a fresh run with 0 characters does not. -/
theorem C5_session_on_stop_witness :
    (stopCase 1004000 "example.com" idleRunState).2.2.isSome = true
      ∧ (stopCase 1004000 "example.com" runningState).2.2.isSome = false := by
  constructor
  · exact (C5_session_on_stop 1004000 "example.com" idleRunState).1.mpr
      (by decide)
  · rfl

/-! ## C6 — input classifier and eligibility -/

/-- `(target.type || 'text').toLowerCase()` from the INPUT branch. -/
def effectiveInputType (e : Element) : String :=
  strToLower (if e.inputType = "" then "text" else e.inputType)

/-- Modelled from the spec: the claim's unordered characterization of
`isTypingContext` — true exactly for textareas, allow-listed inputs,
content-editable elements (or descendants of one), and elements with role
textbox/combobox. -/
def specTypingContext : DomTarget → Bool
  | .element e =>
      e.tagName = "TEXTAREA"
        || (e.tagName = "INPUT"
            && inputTypeAllowList.contains (effectiveInputType e))
        || e.isContentEditable
        || e.role = some "textbox" || e.role = some "combobox"
        || e.inEditableContainer
  | _ => false

/-- C6 (amended): eligibility is exactly `isTypingContext(target) ∨
isTypingContext(activeElement) ∨ isGoogleDocsActive()`, and
`isTypingContext` returns true for textareas; for INPUT elements exactly
when the normalized `type` is allow-listed (the INPUT branch returns early,
so `role`/content-editable attributes on an input are ignored); and for all
other elements exactly when content-editable, role textbox/combobox, or
inside a `contenteditable="true"` container. -/
theorem C6_input_classifier :
    (∀ e : Element, isTypingContext (.element e) = true ↔
      (e.tagName = "TEXTAREA"
        ∨ (e.tagName = "INPUT"
            ∧ inputTypeAllowList.contains (effectiveInputType e) = true)
        ∨ (e.tagName ≠ "TEXTAREA" ∧ e.tagName ≠ "INPUT"
            ∧ (e.isContentEditable = true ∨ e.role = some "textbox"
                ∨ e.role = some "combobox" ∨ e.inEditableContainer = true))))
      ∧ (∀ (doc : DocContext) (t : DomTarget),
          eligibleEvent doc t
            = (isTypingContext t || isTypingContext doc.activeElement
                || isGoogleDocsActive doc)) := by
  constructor
  · intro e
    unfold isTypingContext
    by_cases h1 : e.tagName = "TEXTAREA" <;> by_cases h2 : e.tagName = "INPUT"
    · simp [h1, h2]
    · simp [h1, h2]
    · simp [h1, h2, effectiveInputType]
    · simp only [h1, h2, if_false, ite_false]
      split_ifs with hce hrole
      · simp [h1, h2, hce]
      · simp only [Bool.or_eq_true, decide_eq_true_eq] at hrole
        simp [h1, h2]
        tauto
      · simp only [Bool.or_eq_true, decide_eq_true_eq] at hrole
        push_neg at hrole
        obtain ⟨hr1, hr2⟩ := hrole
        simp [h1, h2, hce, hr1, hr2]
  · intro doc t
    unfold eligibleEvent
    by_cases h : isTypingContext t = true
    · simp [h]
    · simp only [Bool.not_eq_true] at h
      simp [h]

/-- An `<input type="checkbox" role="combobox">` element. -/
def comboboxCheckbox : Element :=
  { tagName := "INPUT", inputType := "checkbox", isContentEditable := false,
    role := some "combobox", inEditableContainer := false }

/-- C6 (counterexample to the claim as stated): an input of
non-allow-listed type carrying `role="combobox"` is in the claim's
"exactly" set (role textbox/combobox), but `isTypingContext` returns
false — the INPUT branch returns before the role check. -/
theorem C6_claim_counterexample :
    specTypingContext (.element comboboxCheckbox) = true
      ∧ isTypingContext (.element comboboxCheckbox) = false :=
  ⟨by decide, by decide⟩

/-- Witness for C6: the textarea is a typing context and eligibility on
the plain page agrees with the three-way disjunction. -/
theorem C6_input_classifier_witness :
    eligibleEvent plainDoc (DomTarget.element textareaEl)
        = (isTypingContext (DomTarget.element textareaEl)
            || isTypingContext plainDoc.activeElement
            || isGoogleDocsActive plainDoc)
      ∧ isTypingContext (DomTarget.element textareaEl) = true :=
  ⟨C6_input_classifier.2 plainDoc (DomTarget.element textareaEl),
   (C6_input_classifier.1 textareaEl).mpr (Or.inl rfl)⟩

/-! ## C7 — bounded session history -/

/-- C7: persisting a Session prepends it and truncates to 10 entries —
the result is exactly `session :: (previous list).take 9`, so its length
never exceeds 10, its head is the new Session, and every element is the
new Session or one of the old entries (no other mutation). -/
theorem C7_history_append (sess : Session) (l : List Session) :
    appendSession sess l = sess :: l.take 9
      ∧ (appendSession sess l).length ≤ 10
      ∧ (appendSession sess l).head? = some sess
      ∧ ∀ x ∈ appendSession sess l, x = sess ∨ x ∈ l := by
  have h : appendSession sess l = sess :: l.take 9 := List.take_succ_cons ..
  refine ⟨h, ?_, ?_, ?_⟩
  · rw [h]
    simp only [List.length_cons, List.length_take]
    omega
  · rw [h]; rfl
  · intro x hx
    rw [h] at hx
    rcases List.mem_cons.mp hx with h1 | h1
    · exact Or.inl h1
    · exact Or.inr (List.take_subset _ _ h1)

/-- A sample finalized Session. -/
def sampleSession : Session :=
  { id := 1004000, timestampMs := 1004000, domain := "example.com",
    duration := 3, avgWPM := 100, avgCPM := 500, totalChars := 25,
    backspaces := 0, pastedChars := 0 }

/-- Witness for C7: appending to a singleton history keeps both entries,
newest first. -/
theorem C7_history_append_witness :
    appendSession sampleSession [sampleSession]
        = [sampleSession, sampleSession]
      ∧ (∀ x ∈ appendSession sampleSession [sampleSession],
          x = sampleSession ∨ x ∈ [sampleSession]) :=
  ⟨(C7_history_append sampleSession [sampleSession]).1,
   (C7_history_append sampleSession [sampleSession]).2.2.2⟩

/-! ## C8 — defensive start/stop -/

/-- C8: re-entering `start` fully resets the run state to the pristine
just-started state whatever the prior state was (every counter, peak,
timestamp, the accumulator, the open burst and the pending idle timer);
and `stop` while no run is active completes defensively — the state stays
inactive and no counter or timestamp of the stale run is altered. -/
theorem C8_start_stop_defensive (now now2 : Nat) (host : String)
    (s s2 : TrackerState) (h2 : s2.isActive = false) :
    (startCase now s).1 = (startCase now initialState).1
      ∧ (startCase now s).1 = ⟨true, none, none, 0, 0, 0, 0, 0, none, none⟩
      ∧ (stopCase now2 host s2).1.isActive = false
      ∧ (stopCase now2 host s2).1.totalChars = s2.totalChars
      ∧ (stopCase now2 host s2).1.backspaces = s2.backspaces
      ∧ (stopCase now2 host s2).1.pastedChars = s2.pastedChars
      ∧ (stopCase now2 host s2).1.startTime = s2.startTime := by
  refine ⟨rfl, rfl, ?_⟩
  unfold stopCase getStats
  rcases hB : s2.burstStart with _ | b <;> simp [hB]

/-- Witness for C8: starting over the mid-run probe state yields the
pristine running state; stopping the never-started initial state leaves it
inactive with its counters at zero. -/
theorem C8_start_stop_defensive_witness :
    (startCase 2000000 peakProbeState).1
        = ⟨true, none, none, 0, 0, 0, 0, 0, none, none⟩
      ∧ (stopCase 2000000 "example.com" initialState).1.isActive = false
      ∧ (stopCase 2000000 "example.com" initialState).1.totalChars
          = initialState.totalChars :=
  ⟨(C8_start_stop_defensive 2000000 2000000 "example.com" peakProbeState
      initialState rfl).2.1,
   (C8_start_stop_defensive 2000000 2000000 "example.com" peakProbeState
      initialState rfl).2.2.1,
   (C8_start_stop_defensive 2000000 2000000 "example.com" peakProbeState
      initialState rfl).2.2.2.1⟩

/-! ## C9 — empty pastes are inert -/

/-- C9: a paste whose clipboard is absent or whose text is empty changes
nothing at all — the state (counters **and** pending idle timer) is
returned untouched, for every state and target. -/
theorem C9_empty_paste_inert (doc : DocContext) (p : PasteEvent) (now : Nat)
    (s : TrackerState)
    (h : p.clipboardData = none ∨ p.clipboardData = some "") :
    handlePaste doc p now s = s := by
  have ht : p.clipboardData.getD "" = "" := by rcases h with h | h <;> simp [h]
  unfold handlePaste
  rw [ht]
  simp

/-- Witness for C9: a clipboard-less paste on an eligible textarea during
an active run leaves the state untouched. -/
theorem C9_empty_paste_inert_witness :
    handlePaste plainDoc
        { target := DomTarget.element textareaEl, clipboardData := none }
        1005000 idleRunState
      = idleRunState :=
  C9_empty_paste_inert plainDoc _ 1005000 idleRunState (Or.inl rfl)

/-! ## C10 — the classifier is total on non-elements -/

/-- C10: on `null`, `undefined`, or any non-`Element` node, the (total)
`isTypingContext` returns false rather than failing. -/
theorem C10_nonelement_is_false (t : DomTarget)
    (h : ∀ e, t ≠ DomTarget.element e) :
    isTypingContext t = false := by
  cases t with
  | null => rfl
  | undefined => rfl
  | nonElement k => rfl
  | element e => exact absurd rfl (h e)

/-- Witness for C10: the three non-element target shapes all classify as
false. -/
theorem C10_nonelement_is_false_witness :
    isTypingContext DomTarget.null = false
      ∧ isTypingContext DomTarget.undefined = false
      ∧ isTypingContext (DomTarget.nonElement "document") = false :=
  ⟨C10_nonelement_is_false _ (fun _ h => DomTarget.noConfusion h),
   C10_nonelement_is_false _ (fun _ h => DomTarget.noConfusion h),
   C10_nonelement_is_false _ (fun _ h => DomTarget.noConfusion h)⟩

end TypeTrack
